import Mathlib

/-!
# Social-Graph-Crawler: verification of the spec's claims against the code

A shallow embedding of the parts of `backend/app` that the claims concern:

* the crawler store operations `create_or_update_node` and `create_edge`
  (`app/crawlers/base.py`), including the run-scoped discovered sets;
* `fetch_with_rate_limit` (`app/crawlers/base.py`), modelled over the
  sequence of transport outcomes of the successive attempts;
* the Reddit crawl pipeline (`app/crawlers/reddit_crawler.py`), driven by a
  `RedditWorld` describing what each external fetch returns;
* the graph read API (`app/api/graph.py`): subgraph BFS, shortest path BFS
  and the statistics endpoint;
* the crawl-job cancellation endpoint (`app/api/crawl.py` +
  `app/models/crawl_job.py`).

Machine floats are modelled as exact rationals (`Rat`); the claims under
study are about which arithmetic is performed (average vs. sum vs.
replace), not about rounding.  Database rows live in lists; the store's
unique constraints mean at most one row ever matches an identity key, which
is why a row update may be written as a `List.map` over the table.
-/

namespace SocialGraph

/-! ## Metadata dictionaries

Python-side `metadata` is a JSON object (string keys).  Values are modelled
with a small inductive that includes a one-level map, enough to distinguish
the shallow merge `{**old, **new}` (later keys override wholesale) from a
deep merge. -/

/-- A JSON-ish metadata value. `vmap` is a nested one-level object: under the
shallow merge a `vmap` value is replaced wholesale, never merged. -/
inductive MetaVal
  | vstr (s : String)
  | vint (n : Int)
  | vbool (b : Bool)
  | vmap (m : List (String × String))
deriving DecidableEq, Repr

/-- A metadata dictionary: insertion-ordered string-keyed mapping. -/
abbrev Meta := List (String × MetaVal)

/-- Dictionary lookup: the value at the first entry whose key matches. -/
def dictGet (m : Meta) (k : String) : Option MetaVal :=
  (m.find? (fun p => p.1 == k)).map (fun p => p.2)

/-- Python's `{**a, **b}`: keys of `a` in order (with `b`'s value where `b`
also has the key), then keys of `b` not present in `a`. -/
def dictUnion (a b : Meta) : Meta :=
  a.map (fun p =>
    match b.find? (fun q => q.1 == p.1) with
    | some q => (p.1, q.2)
    | none => p)
  ++ b.filter (fun q => (a.find? (fun p => p.1 == q.1)).isNone)

/-! ## The crawler store (`app/crawlers/base.py`)

`BaseCrawler` keeps an async DB session plus two run-scoped dedup sets,
`discovered_nodes` (unique keys `source:entity_type:entity_id`) and
`discovered_edges` (`(source_node.id, target_node.id, relationship_type)`).
Rows get UUID primary keys on insert; the model hands out `Nat` ids from a
counter, which preserves the one property used (freshness). -/

/-- A stored node row (`app/models/node.py`): unique on
(source, entity_type, entity_id). -/
structure DbNode where
  id : Nat
  source : String
  entity_type : String
  entity_id : String
  display_name : String
  metadata : Meta
deriving DecidableEq, Repr

/-- A stored edge row (`app/models/edge.py`): unique on
(source_node_id, target_node_id, relationship_type). -/
structure DbEdge where
  source_node_id : Nat
  target_node_id : Nat
  relationship_type : String
  weight : Rat
  metadata : Meta
deriving DecidableEq, Repr

/-- The database plus one crawler instance's run-scoped state. -/
structure CrawlerState where
  dbNodes : List DbNode
  dbEdges : List DbEdge
  discovered_nodes : List String
  discovered_edges : List (Nat × Nat × String)
  nextId : Nat
deriving DecidableEq, Repr

/-- The empty store with a fresh crawler instance. -/
def emptyCrawlerState : CrawlerState :=
  { dbNodes := [], dbEdges := [], discovered_nodes := [], discovered_edges := [], nextId := 0 }

/-- A fresh crawler instance (run) over an existing store: the run-scoped
discovered sets start empty, the database persists. -/
def newRun (st : CrawlerState) : CrawlerState :=
  { st with discovered_nodes := [], discovered_edges := [] }

/-- `f"{source}:{entity_type}:{entity_id}"`, the discovered-set key. -/
def nodeKey (source entity_type entity_id : String) : String :=
  source ++ ":" ++ entity_type ++ ":" ++ entity_id

/-- The `select(Node).where(...)` lookup by identity triple. -/
def findNode (db : List DbNode) (source entity_type entity_id : String) : Option DbNode :=
  db.find? (fun n =>
    n.source == source && n.entity_type == entity_type && n.entity_id == entity_id)

/-- The `select(Edge).where(...)` lookup by identity triple. -/
def findEdge (db : List DbEdge) (src tgt : Nat) (rel : String) : Option DbEdge :=
  db.find? (fun e =>
    e.source_node_id == src && e.target_node_id == tgt && e.relationship_type == rel)

/-- `BaseCrawler.create_or_update_node` (base.py lines 139-200).  Returns the
updated state and the id of the returned `Node`.  If the unique key is
already in this run's `discovered_nodes`, the row is fetched and returned
unchanged (`scalar_one()`; the fallback id 0 models the branch where the row
were absent, which `scalar_one()` treats as an error — unreachable because a
key enters the discovered set only after its row is flushed).  Otherwise the
row is updated (display_name replaced; metadata merged `{**old, **new}` when
the argument is truthy, i.e. nonempty) or inserted. -/
def create_or_update_node (st : CrawlerState) (source entity_type entity_id display_name : String)
    (metadata : Meta) : CrawlerState × Nat :=
  let key := nodeKey source entity_type entity_id
  if st.discovered_nodes.contains key then
    (st, ((findNode st.dbNodes source entity_type entity_id).map (fun n => n.id)).getD 0)
  else
    match findNode st.dbNodes source entity_type entity_id with
    | some n =>
      let upd := fun (d : DbNode) =>
        if d.source == source && d.entity_type == entity_type && d.entity_id == entity_id then
          { d with display_name := display_name,
                   metadata := if metadata.isEmpty then d.metadata
                               else dictUnion d.metadata metadata }
        else d
      ({ st with dbNodes := st.dbNodes.map upd,
                 discovered_nodes := st.discovered_nodes ++ [key] }, n.id)
    | none =>
      ({ st with
          dbNodes := st.dbNodes ++
            [{ id := st.nextId, source := source, entity_type := entity_type,
               entity_id := entity_id, display_name := display_name, metadata := metadata }],
          nextId := st.nextId + 1,
          discovered_nodes := st.discovered_nodes ++ [key] }, st.nextId)

/-- `BaseCrawler.create_edge` (base.py lines 202-255).  If the edge key is in
this run's `discovered_edges` the call returns `None` immediately: no store
access, no change.  Otherwise the existing row (at most one, by the unique
constraint) has its weight replaced by the average of old and new and its
metadata merged when the argument is nonempty, or a new row is inserted. -/
def create_edge (st : CrawlerState) (src tgt : Nat) (rel : String) (weight : Rat)
    (metadata : Meta) : CrawlerState :=
  let key : Nat × Nat × String := (src, tgt, rel)
  if st.discovered_edges.contains key then st
  else
    let st2 : CrawlerState :=
      match findEdge st.dbEdges src tgt rel with
      | some _ =>
        { st with dbEdges := st.dbEdges.map (fun (d : DbEdge) =>
            if d.source_node_id == src && d.target_node_id == tgt &&
                d.relationship_type == rel then
              { d with weight := (d.weight + weight) / 2,
                       metadata := if metadata.isEmpty then d.metadata
                                   else dictUnion d.metadata metadata }
            else d) }
      | none =>
        { st with dbEdges := st.dbEdges ++
            [{ source_node_id := src, target_node_id := tgt, relationship_type := rel,
               weight := weight, metadata := metadata }] }
    { st2 with discovered_edges := st.discovered_edges ++ [key] }

/-! ## Dictionary-merge lemmas -/

/-- Merging with the empty dictionary on the right changes nothing. -/
theorem dictUnion_nil (a : Meta) : dictUnion a [] = a := by
  simp [dictUnion]

/-- The truthiness guard `if metadata:` around the merge is redundant:
merging an empty update is a no-op anyway. -/
theorem if_isEmpty_dictUnion (a b : Meta) :
    (if b.isEmpty then a else dictUnion a b) = dictUnion a b := by
  cases b with
  | nil => simp [dictUnion_nil]
  | cons q b => rfl

/-- If no key of `a` matches `k`, the `dictUnion` filter over `b` hides no
`k`-entry: searching the filtered `b` equals searching `b`. -/
theorem find?_filter_of_none {a : Meta} {k : String}
    (ha : a.find? (fun p => p.1 == k) = none) (b : Meta) :
    (b.filter (fun q => (a.find? (fun p => p.1 == q.1)).isNone)).find?
        (fun p => p.1 == k) = b.find? (fun p => p.1 == k) := by
  induction b with
  | nil => rfl
  | cons q b ih =>
    by_cases hq : (q.1 == k) = true
    · have hk : q.1 = k := eq_of_beq hq
      have hfq : (a.find? (fun p => p.1 == q.1)).isNone = true := by
        rw [hk, ha]
        rfl
      simp [List.filter_cons, hfq, List.find?_cons, hq]
    · cases hc : (a.find? (fun p => p.1 == q.1)).isNone with
      | true => simp [List.filter_cons, hc, List.find?_cons_of_neg, hq, ih]
      | false => simp [List.filter_cons, hc, List.find?_cons_of_neg, hq, ih]

/-- `{**a, **b}` is the shallow union with later keys overriding: a lookup
in the merged dictionary is the lookup in `b`, falling back to `a`. -/
theorem dictGet_dictUnion (a b : Meta) (k : String) :
    dictGet (dictUnion a b) k = (dictGet b k).or (dictGet a k) := by
  have hf : ∀ p : String × MetaVal,
      ((match b.find? (fun q => q.1 == p.1) with
        | some q => (p.1, q.2)
        | none => p) : String × MetaVal).1 = p.1 := by
    intro p
    cases b.find? (fun q => q.1 == p.1) <;> rfl
  unfold dictGet dictUnion
  rw [List.find?_append, List.find?_map]
  have hcomp : ((fun p : String × MetaVal => p.1 == k) ∘
      (fun p : String × MetaVal => match b.find? (fun q => q.1 == p.1) with
        | some q => (p.1, q.2)
        | none => p)) = fun p : String × MetaVal => p.1 == k := by
    funext p
    simp [Function.comp, hf p]
  rw [hcomp]
  cases ha : a.find? (fun p => p.1 == k) with
  | some p =>
    have hpk := List.find?_some ha
    have hk : p.1 = k := by simpa using hpk
    cases hb : b.find? (fun q => q.1 == k) with
    | some q =>
      have hb2 : b.find? (fun q => q.1 == p.1) = some q := by rw [hk, hb]
      simp [hb2]
    | none =>
      have hb2 : b.find? (fun q => q.1 == p.1) = none := by rw [hk, hb]
      simp [hb2]
  | none =>
    simp [find?_filter_of_none ha b]

/-! ## Claim C1: edge weight merge -/

/-- The store after `create_edge(1, 2, "r", 0.4)` on an empty store. -/
def c1FirstCall : CrawlerState := create_edge emptyCrawlerState 1 2 "r" (2/5) []

/-- C1 counterexample.  The claim asserts that two `create_edge` calls with
the same (source, target, type) key and weights 0.4 then 0.8 leave stored
weight 0.6 also when both calls happen in the same crawl run.  They do not:
within one run the second call finds the edge key in `discovered_edges` and
returns `None` before touching the store, so the stored weight stays 0.4. -/
theorem c1_same_run_counterexample :
    (findEdge (create_edge c1FirstCall 1 2 "r" (4/5) []).dbEdges 1 2 "r").map
      (fun e => e.weight) = some (2/5) ∧
    (2/5 : Rat) ≠ 3/5 ∧ (2/5 : Rat) ≠ 1/5 + 1 ∧ (2/5 : Rat) ≠ 4/5 :=
  ⟨rfl, by norm_num, by norm_num, by norm_num⟩

/-- C1 amended.  Averaging applies exactly when the edge key is not in the
current run's `discovered_edges` set: re-creating the edge in a fresh run
(same store, reset discovered sets) stores the arithmetic mean
`(w1 + w2) / 2` — for 0.4 then 0.8 that is 0.6, not 1.2 and not 0.8 — while
a repeated call within the same run is skipped entirely and leaves the
first weight in place. -/
theorem c1_weight_merge_amended : ∀ w1 w2 : Rat,
    (findEdge (create_edge (create_edge emptyCrawlerState 1 2 "r" w1 []) 1 2 "r" w2
        []).dbEdges 1 2 "r").map (fun e => e.weight) = some w1 ∧
    (findEdge (create_edge (newRun (create_edge emptyCrawlerState 1 2 "r" w1 [])) 1 2 "r" w2
        []).dbEdges 1 2 "r").map (fun e => e.weight) = some ((w1 + w2) / 2) := by
  intro w1 w2
  exact ⟨rfl, rfl⟩

/-! ## Claim C2: node upsert idempotence and metadata merge -/

/-- First metadata mapping of the C2 counterexample. -/
def c2MetaA : Meta := [("a", MetaVal.vstr "1")]

/-- Second metadata mapping of the C2 counterexample. -/
def c2MetaB : Meta := [("b", MetaVal.vstr "2")]

/-- C2 counterexample.  The claim asserts the union-merge of metadata also
when both `create_or_update_node` calls happen in the same crawl run.  It
fails there: the second call finds the unique key in `discovered_nodes` and
returns the stored row unchanged, so the stored metadata is the first
mapping alone, not the union of both. -/
theorem c2_same_run_counterexample :
    (findNode ((create_or_update_node
        ((create_or_update_node emptyCrawlerState "src" "t" "i" "dn1" c2MetaA).1)
        "src" "t" "i" "dn2" c2MetaB).1).dbNodes "src" "t" "i").map (fun n => n.metadata) =
      some c2MetaA ∧
    c2MetaA ≠ dictUnion c2MetaA c2MetaB :=
  ⟨rfl, by decide⟩

/-- C2 amended.  When the two calls happen in different crawl runs (the
second run's discovered set no longer short-circuits the lookup), the store
afterwards holds exactly one row for the identity triple, its metadata is
the shallow union `{**m1, **m2}`, and lookups in that union take the later
call's value with the earlier call's as fallback. -/
theorem c2_metadata_merge_amended : ∀ (m1 m2 : Meta) (dn1 dn2 : String),
    (((create_or_update_node (newRun
        ((create_or_update_node emptyCrawlerState "src" "t" "i" dn1 m1).1))
        "src" "t" "i" dn2 m2).1).dbNodes =
      [{ id := 0, source := "src", entity_type := "t", entity_id := "i",
         display_name := dn2, metadata := dictUnion m1 m2 }]) ∧
    (∀ k, dictGet (dictUnion m1 m2) k = (dictGet m2 k).or (dictGet m1 k)) := by
  intro m1 m2 dn1 dn2
  constructor
  · show ([{ id := 0, source := "src", entity_type := "t", entity_id := "i",
             display_name := dn2,
             metadata := if m2.isEmpty then m1 else dictUnion m1 m2 }] : List DbNode) = _
    rw [if_isEmpty_dictUnion]
  · intro k
    exact dictGet_dictUnion m1 m2 k

/-! ## Claim C4: rate-limit retry (`BaseCrawler.fetch_with_rate_limit`)

The transport is modelled by the sequence of outcomes the successive HTTP
attempts would produce.  `fetch_with_rate_limit` consumes one outcome per
attempt; the code's 429 branch is `await asyncio.sleep(60)` followed by
`return await self.fetch_with_rate_limit(url, headers, params)`, i.e. a
recursive re-attempt, counted in the second component of the result (the
number of backoff sleeps = the number of retried attempts). -/

/-- What one HTTP attempt yields: a parsed body, a 429, or another error. -/
inductive FetchResp
  | ok (v : Nat)
  | rateLimited
  | transportError
deriving DecidableEq, Repr

/-- What the caller of `fetch_with_rate_limit` observes: a returned body or
a raised exception. -/
inductive FetchOutcome
  | success (v : Nat)
  | failure
deriving DecidableEq, Repr

/-- `BaseCrawler.fetch_with_rate_limit` (base.py lines 103-137) over the
attempts' outcomes; `none` means the attempt sequence was exhausted while
the code still wanted to retry. -/
def fetch_with_rate_limit : List FetchResp → Option (FetchOutcome × Nat)
  | [] => none
  | FetchResp.ok v :: _ => some (FetchOutcome.success v, 0)
  | FetchResp.transportError :: _ => some (FetchOutcome.failure, 0)
  | FetchResp.rateLimited :: rest =>
      (fetch_with_rate_limit rest).map (fun p => (p.1, p.2 + 1))

/-- C4 counterexample.  The claim says a 429 is retried exactly once, and a
second 429 surfaces the failure rather than retrying again.  On the attempt
sequence 429, 429, 200 the code instead sleeps and retries twice and
returns the third attempt's body: the second rate-limit signal was retried,
not surfaced. -/
theorem c4_single_retry_counterexample :
    fetch_with_rate_limit [FetchResp.rateLimited, FetchResp.rateLimited, FetchResp.ok 7] =
      some (FetchOutcome.success 7, 2) ∧ (2 : Nat) ≠ 1 :=
  ⟨rfl, by decide⟩

/-- C4 amended.  On every 429 the adapter sleeps the fixed cool-down once
and retries; this repeats for each consecutive 429 without bound (n
rate-limit signals in a row cause n sleeps and n retried attempts, never a
surfaced rate-limit failure), until an attempt returns a body (returned to
the caller) or fails some other way (raised to the caller immediately,
without further retries). -/
theorem c4_retry_amended : ∀ (n : Nat) (v : Nat) (rest : List FetchResp),
    fetch_with_rate_limit (List.replicate n FetchResp.rateLimited ++ FetchResp.ok v :: rest) =
      some (FetchOutcome.success v, n) ∧
    fetch_with_rate_limit
        (List.replicate n FetchResp.rateLimited ++ FetchResp.transportError :: rest) =
      some (FetchOutcome.failure, n) := by
  intro n v rest
  induction n with
  | zero => exact ⟨rfl, rfl⟩
  | succ n ih =>
    refine ⟨?_, ?_⟩ <;>
      simp [List.replicate_succ, fetch_with_rate_limit, ih.1, ih.2]

/-! ## Claim C8: crawl-job cancellation

`CrawlJob.is_finished` (`app/models/crawl_job.py` lines 127-134) and the
`DELETE /jobs/{job_id}` handler `cancel_crawl_job` (`app/api/crawl.py`).
Timestamps are abstract ticks (`Nat`). -/

/-- The five job states of `CrawlStatus` (`app/models/crawl_job.py`). -/
inductive CrawlStatus
  | pending
  | running
  | completed
  | failed
  | cancelled
deriving DecidableEq, Repr

/-- A `crawl_jobs` row (`app/models/crawl_job.py`). -/
structure CrawlJobRec where
  status : CrawlStatus
  entity_count : Nat
  edge_count : Nat
  error_message : Option String
  started_at : Option Nat
  completed_at : Option Nat
deriving DecidableEq, Repr

/-- `CrawlJob.is_finished`: the status is one of the three terminal ones. -/
def is_finished (j : CrawlJobRec) : Bool :=
  j.status == CrawlStatus.completed || j.status == CrawlStatus.failed ||
    j.status == CrawlStatus.cancelled

/-- The cancellation handler (`app/api/crawl.py`): reject finished jobs with
a 400, otherwise set status CANCELLED and fill `completed_at` if unset. -/
def cancel_crawl_job (j : CrawlJobRec) (now : Nat) : Except String CrawlJobRec :=
  if is_finished j then Except.error "Cannot cancel a finished job"
  else Except.ok { j with
    status := CrawlStatus.cancelled,
    completed_at := if j.completed_at.isNone then some now else j.completed_at }

/-- C8.  Cancellation succeeds iff the job is PENDING or RUNNING; a
successful cancellation yields status CANCELLED with `completed_at`
non-null and every other field unchanged; a job in a terminal state is
rejected with the 400 error and no updated record, so no job leaves a
terminal state through this endpoint. -/
theorem c8_cancellation : ∀ (j : CrawlJobRec) (now : Nat),
    ((∃ j2, cancel_crawl_job j now = Except.ok j2) ↔
      (j.status = CrawlStatus.pending ∨ j.status = CrawlStatus.running)) ∧
    (∀ j2, cancel_crawl_job j now = Except.ok j2 →
      j2.status = CrawlStatus.cancelled ∧ j2.completed_at.isSome = true ∧
      j2.entity_count = j.entity_count ∧ j2.edge_count = j.edge_count ∧
      j2.error_message = j.error_message ∧ j2.started_at = j.started_at) ∧
    (is_finished j = true →
      cancel_crawl_job j now = Except.error "Cannot cancel a finished job") := by
  intro j now
  obtain ⟨s, ec, gc, em, sa, ca⟩ := j
  refine ⟨?_, ?_, ?_⟩
  · cases s <;> simp [cancel_crawl_job, is_finished]
  · intro j2 h
    cases ca <;> cases s <;> simp [cancel_crawl_job, is_finished] at h <;> subst h <;> simp
  · intro h
    cases s <;> simp_all [cancel_crawl_job, is_finished]

/-- C8 witness: a concrete RUNNING job is cancellable and a concrete
COMPLETED job is rejected, by the claim theorem at those inputs. -/
theorem c8_cancellation_witness :
    (∃ j2, cancel_crawl_job
        ⟨CrawlStatus.running, 0, 0, none, some 1, none⟩ 9 = Except.ok j2) ∧
    cancel_crawl_job ⟨CrawlStatus.completed, 5, 3, none, some 1, some 2⟩ 9 =
      Except.error "Cannot cancel a finished job" :=
  ⟨(c8_cancellation ⟨CrawlStatus.running, 0, 0, none, some 1, none⟩ 9).1.mpr (Or.inr rfl),
   (c8_cancellation ⟨CrawlStatus.completed, 5, 3, none, some 1, some 2⟩ 9).2.2 (by decide)⟩

/-! ## The graph read API (`app/api/graph.py`)

The stored graph as the API sees it.  BFS loops are written with an explicit
fuel parameter; each loop iteration pops one queue element and every node id
enters the queue at most once (guarded by the visited set), so
`2 * |edges| + 2` fuel can never be exhausted before the loop's own exit
conditions fire.  The claims are stated so that they do not depend on the
fuel being large enough or are evaluated on concrete graphs. -/

/-- A stored node as the read API uses it (identity and grouping fields). -/
structure GNode where
  id : Nat
  entity_type : String
  source : String
deriving DecidableEq, Repr

/-- A stored edge row as the read API uses it. -/
structure GEdge where
  eid : Nat
  src : Nat
  tgt : Nat
  rel : String
  weight : Rat
deriving DecidableEq, Repr

/-- The stored graph. -/
structure Graph where
  nodes : List GNode
  edges : List GEdge
deriving DecidableEq, Repr

/-- `select(Node).where(Node.id == i)`. -/
def getNode (g : Graph) (i : Nat) : Option GNode :=
  g.nodes.find? (fun n => n.id == i)

/-- The `direction` query parameter. -/
inductive Direction
  | outgoing
  | incoming
  | both
deriving DecidableEq, Repr

/-- The optional `relationship_types` filter. -/
def relOk (rels : Option (List String)) (e : GEdge) : Bool :=
  match rels with
  | none => true
  | some rs => rs.contains e.rel

/-- The edge query `query_graph` builds for one dequeued node: outgoing
and/or incoming edges per the direction, `UNION` deduplicated. -/
def edgesFor (g : Graph) (dir : Direction) (rels : Option (List String)) (i : Nat) :
    List GEdge :=
  let outs := g.edges.filter (fun e => e.src == i && relOk rels e)
  let ins := g.edges.filter (fun e => e.tgt == i && relOk rels e)
  match dir with
  | Direction.outgoing => outs
  | Direction.incoming => ins
  | Direction.both => outs ++ ins.filter (fun e => !(outs.contains e))

/-- The mutable state of `query_graph`'s BFS: visited node ids and edge ids,
the FIFO frontier of (node id, depth) pairs, and the accumulating results. -/
structure QueryState where
  visited : List Nat
  visitedEdges : List Nat
  queue : List (Nat × Nat)
  resultNodes : List Nat
  resultEdges : List GEdge
deriving DecidableEq, Repr

/-- The body of `query_graph`'s `for edge in edges` loop (graph.py lines
100-116): skip a visited edge id, otherwise record the edge, then enqueue
the far endpoint if not yet visited.  Note the edge is added to the result
before any visited or cap check on its far endpoint. -/
def processEdge (dir : Direction) (cur depth : Nat) (st : QueryState) (e : GEdge) :
    QueryState :=
  if st.visitedEdges.contains e.eid then st
  else
    let st1 := { st with visitedEdges := st.visitedEdges ++ [e.eid],
                         resultEdges := st.resultEdges ++ [e] }
    let nxt := if dir == Direction.outgoing || e.src == cur then e.tgt else e.src
    if st1.visited.contains nxt then st1
    else { st1 with visited := st1.visited ++ [nxt], queue := st1.queue ++ [(nxt, depth + 1)] }

/-- The `while queue and len(visited_nodes) < query.max_nodes` loop of
`query_graph` (graph.py lines 61-116): pop a node, append it to the result,
and when its depth allows, process its edges. -/
def queryLoop (g : Graph) (dir : Direction) (rels : Option (List String))
    (depth maxNodes : Nat) : Nat → QueryState → QueryState
  | 0, st => st
  | fuel+1, st =>
    if st.visited.length < maxNodes then
      match st.queue with
      | [] => st
      | (cur, d) :: rest =>
        let st1 := { st with queue := rest, resultNodes := st.resultNodes ++ [cur] }
        if d < depth then
          queryLoop g dir rels depth maxNodes fuel
            ((edgesFor g dir rels cur).foldl (processEdge dir cur d) st1)
        else queryLoop g dir rels depth maxNodes fuel st1
    else st

/-- The response body of `POST /graph/query` (node ids and edges). -/
structure GraphResult where
  nodes : List Nat
  edges : List GEdge
deriving DecidableEq, Repr

/-- `query_graph` (graph.py lines 30-126): 404 (`none`) for a missing start
node, otherwise BFS from the start node. -/
def query_graph (g : Graph) (start depth maxNodes : Nat) (dir : Direction)
    (rels : Option (List String)) : Option GraphResult :=
  if (getNode g start).isSome then
    let st := queryLoop g dir rels depth maxNodes (2 * g.edges.length + 2)
      { visited := [start], visitedEdges := [], queue := [(start, 0)],
        resultNodes := [], resultEdges := [] }
    some { nodes := st.resultNodes, edges := st.resultEdges }
  else none

/-! ## Claim C6: subgraph cutoff vs. returned edges -/

/-- Three nodes, the start node pointing at the other two. -/
def c6Graph : Graph :=
  { nodes := [⟨1, "user", "s"⟩, ⟨2, "user", "s"⟩, ⟨3, "user", "s"⟩],
    edges := [⟨1, 1, 2, "r", 1⟩, ⟨2, 1, 3, "r", 1⟩] }

/-- C6, evaluated at the failing input.  With `max_nodes = 2` and
`depth = 1` from node 1, the code returns node set `[1]` together with both
edges `1 → 2` and `1 → 3`, whose far endpoints 2 and 3 were excluded from
the node set solely by the `max_nodes` cutoff — the claim (and the spec's
guarantee) says such edges must not be returned.  The cap is only consulted
at the top of the loop, after a dequeued node's entire edge list has
already been appended to the result. -/
theorem c6_cutoff_edge_bug :
    query_graph c6Graph 1 1 2 Direction.outgoing none =
      some { nodes := [1], edges := [⟨1, 1, 2, "r", 1⟩, ⟨2, 1, 3, "r", 1⟩] } ∧
    (2 ∉ ([1] : List Nat)) ∧ (3 ∉ ([1] : List Nat)) :=
  ⟨rfl, by decide, by decide⟩

/-! ## Claims C7 and C10: shortest path -/

/-- One entry of `find_shortest_path`'s BFS queue: current node, node path,
edge ids of the path, accumulated weight, and depth. -/
structure PathItem where
  cur : Nat
  path : List Nat
  pedges : List Nat
  total_weight : Rat
  depth : Nat
deriving DecidableEq, Repr

/-- The response body of `POST /graph/path`. -/
structure PathResponse where
  path : List Nat
  edgeIds : List Nat
  length : Nat
  total_weight : Rat
deriving DecidableEq, Repr

/-- The `while queue` loop of `find_shortest_path` (graph.py lines
281-324): pop an item; if it sits on the target, answer with its path
(`length = len(path) - 1`); if its depth reached `max_depth`, drop it;
otherwise expand its outgoing edges, enqueueing unvisited targets
first-reached-wins. -/
def pathLoop (g : Graph) (target maxDepth : Nat) :
    Nat → List Nat → List PathItem → Option PathResponse
  | 0, _, _ => none
  | _+1, _, [] => none
  | fuel+1, visited, it :: rest =>
    if it.cur == target then
      some { path := it.path, edgeIds := it.pedges, length := it.path.length - 1,
             total_weight := it.total_weight }
    else if maxDepth ≤ it.depth then pathLoop g target maxDepth fuel visited rest
    else
      let es := g.edges.filter (fun e => e.src == it.cur)
      let step := es.foldl (fun (acc : List Nat × List PathItem) e =>
        if acc.1.contains e.tgt then acc
        else (acc.1 ++ [e.tgt],
              acc.2 ++ [{ cur := e.tgt, path := it.path ++ [e.tgt],
                          pedges := it.pedges ++ [e.eid],
                          total_weight := it.total_weight + e.weight,
                          depth := it.depth + 1 }])) (visited, [])
      pathLoop g target maxDepth fuel step.1 (rest ++ step.2)

/-- Fuel for `pathLoop`: every node id is enqueued at most once (visited is
checked before each enqueue), so at most `1 + |edges|` items are ever
dequeued. -/
def pathFuel (g : Graph) : Nat := g.edges.length + 2

/-- `find_shortest_path` (graph.py lines 246-330): 404 (`none`) when either
endpoint is missing or when the BFS exhausts without reaching the target
within `max_depth` hops. -/
def find_shortest_path (g : Graph) (source target maxDepth : Nat) : Option PathResponse :=
  if (getNode g source).isSome && (getNode g target).isSome then
    pathLoop g target maxDepth (pathFuel g) [source]
      [{ cur := source, path := [source], pedges := [], total_weight := 0, depth := 0 }]
  else none

/-- The chain graph A→B→C→D of the claim, with ids 1,2,3,4 and arbitrary
edge weights. -/
def c7Graph (w1 w2 w3 : Rat) : Graph :=
  { nodes := [⟨1, "user", "s"⟩, ⟨2, "user", "s"⟩, ⟨3, "user", "s"⟩, ⟨4, "user", "s"⟩],
    edges := [⟨1, 1, 2, "r", w1⟩, ⟨2, 2, 3, "r", w2⟩, ⟨3, 3, 4, "r", w3⟩] }

/-- C7.  Over the chain A→B→C→D: with `max_depth = 5` the query returns the
path [A,B,C,D] of length 3 whose `total_weight` is the sum of the three
edge weights; with `max_depth = 2` it is NotFound; and a query whose source
or target node does not exist is NotFound for every graph. -/
theorem c7_shortest_path :
    (∀ w1 w2 w3 : Rat, find_shortest_path (c7Graph w1 w2 w3) 1 4 5 =
        some { path := [1, 2, 3, 4], edgeIds := [1, 2, 3], length := 3,
               total_weight := w1 + w2 + w3 }) ∧
    (∀ w1 w2 w3 : Rat, find_shortest_path (c7Graph w1 w2 w3) 1 4 2 = none) ∧
    (∀ (g : Graph) (s t d : Nat), (getNode g s).isSome = false →
        find_shortest_path g s t d = none) ∧
    (∀ (g : Graph) (s t d : Nat), (getNode g t).isSome = false →
        find_shortest_path g s t d = none) := by
  refine ⟨?_, ?_, ?_, ?_⟩
  · intro w1 w2 w3
    have h : find_shortest_path (c7Graph w1 w2 w3) 1 4 5 =
        some { path := [1, 2, 3, 4], edgeIds := [1, 2, 3], length := 3,
               total_weight := 0 + w1 + w2 + w3 } := rfl
    rw [h]
    norm_num
  · intro w1 w2 w3
    rfl
  · intro g s t d h
    simp [find_shortest_path, h]
  · intro g s t d h
    simp [find_shortest_path, h]

/-- C7 witness: on the concrete chain graph, a query from the absent node 9
and a query to the absent node 9 are both NotFound, by the claim theorem. -/
theorem c7_shortest_path_witness :
    find_shortest_path (c7Graph 1 1 1) 9 4 5 = none ∧
    find_shortest_path (c7Graph 1 1 1) 1 9 5 = none :=
  ⟨c7_shortest_path.2.2.1 (c7Graph 1 1 1) 9 4 5 (by decide),
   c7_shortest_path.2.2.2 (c7Graph 1 1 1) 1 9 5 (by decide)⟩

/-- One `pathLoop` iteration whose head item sits on the target answers
immediately with that item's path. -/
theorem pathLoop_step_found (g : Graph) (target maxDepth fuel : Nat) (visited : List Nat)
    (it : PathItem) (rest : List PathItem) (h : (it.cur == target) = true) :
    pathLoop g target maxDepth (fuel + 1) visited (it :: rest) =
      some { path := it.path, edgeIds := it.pedges, length := it.path.length - 1,
             total_weight := it.total_weight } := by
  simp [pathLoop, h]

/-- C10.  A shortest-path query with `source = target = n` on any graph
containing `n` answers with the single-node path [n], length 0 and
total_weight 0, before any edge is examined and for every `max_depth`: the
target test precedes the depth test and the expansion. -/
theorem c10_self_path : ∀ (g : Graph) (n maxDepth : Nat), (getNode g n).isSome = true →
    find_shortest_path g n n maxDepth =
      some { path := [n], edgeIds := [], length := 0, total_weight := 0 } := by
  intro g n maxDepth h
  unfold find_shortest_path
  rw [h]
  simp only [Bool.and_self, if_true]
  have hfuel : pathFuel g = (g.edges.length + 1) + 1 := rfl
  rw [hfuel, pathLoop_step_found]
  · rfl
  · simp

/-- A single isolated node, input for the C10 witness. -/
def c10Graph : Graph := { nodes := [⟨7, "user", "s"⟩], edges := [] }

/-- C10 witness: the claim theorem applied to the one-node graph at
`max_depth = 1`. -/
theorem c10_self_path_witness :
    find_shortest_path c10Graph 7 7 1 =
      some { path := [7], edgeIds := [], length := 0, total_weight := 0 } :=
  c10_self_path c10Graph 7 1 (by decide)

/-! ## Claim C9: graph statistics -/

/-- One step of a `GROUP BY ... COUNT` aggregate over a key column. -/
def tallyAdd (m : List (String × Nat)) (k : String) : List (String × Nat) :=
  if m.any (fun p => p.1 == k) then
    m.map (fun p => if p.1 == k then (p.1, p.2 + 1) else p)
  else m ++ [(k, 1)]

/-- `GROUP BY` key with counts, in first-seen order. -/
def tally (ks : List String) : List (String × Nat) := ks.foldl tallyAdd []

/-- The response body of `GET /graph/stats`. -/
structure GraphStatsModel where
  total_nodes : Nat
  total_edges : Nat
  nodes_by_type : List (String × Nat)
  nodes_by_source : List (String × Nat)
  edges_by_type : List (String × Nat)
  average_degree : Rat
  density : Rat
  connected_components : Nat
deriving DecidableEq, Repr

/-- `get_graph_stats` (graph.py lines 129-183).  `connected_components` is
assigned `total_nodes` (line 172, "Placeholder" per the code's own
comment). -/
def get_graph_stats (g : Graph) : GraphStatsModel :=
  let v : Nat := g.nodes.length
  let ec : Nat := g.edges.length
  let avg : Rat := if 0 < v then (2 * ec : Rat) / (v : Rat) else 0
  let maxPoss : Rat := (v : Rat) * ((v : Rat) - 1) / 2
  let dens : Rat := if 0 < maxPoss then (ec : Rat) / maxPoss else 0
  { total_nodes := v, total_edges := ec,
    nodes_by_type := tally (g.nodes.map (fun n => n.entity_type)),
    nodes_by_source := tally (g.nodes.map (fun n => n.source)),
    edges_by_type := tally (g.edges.map (fun e => e.rel)),
    average_degree := avg, density := dens,
    connected_components := v }

/-- Merge the components containing `a` and `b` (skip if already equal; a
component list is a partition, so list equality is component identity). -/
def mergeComps (comps : List (List Nat)) (a b : Nat) : List (List Nat) :=
  match comps.find? (fun c => c.contains a), comps.find? (fun c => c.contains b) with
  | some ca, some cb =>
      if ca == cb then comps
      else (ca ++ cb) :: comps.filter (fun c => !(c == ca) && !(c == cb))
  | _, _ => comps

/-- Modelled from the spec: the true connected-component count "via
union-find over the edge set" that the spec demands (the repository has no
such implementation — graph.py line 172 reports the node count instead).
Singleton components per node, then one union per edge. -/
def specConnectedComponents (g : Graph) : Nat :=
  (g.edges.foldl (fun comps e => mergeComps comps e.src e.tgt)
    (g.nodes.map (fun n => [n.id]))).length

/-- Two nodes joined by one edge, input on which the placeholder and the
true component count part ways. -/
def c9Graph : Graph :=
  { nodes := [⟨1, "user", "s"⟩, ⟨2, "user", "s"⟩],
    edges := [⟨1, 1, 2, "r", 1⟩] }

/-- C9, evaluated at the failing input.  On a graph of two nodes joined by
an edge the endpoint reports `connected_components = 2` — the node count —
while the true component count is 1; the value is neither a true count nor
marked unsupported in the response. -/
theorem c9_component_count_bug :
    (get_graph_stats c9Graph).connected_components = 2 ∧
    specConnectedComponents c9Graph = 1 ∧ (2 : Nat) ≠ 1 :=
  ⟨rfl, rfl, by decide⟩

/-! ## The Reddit crawl pipeline (`app/crawlers/reddit_crawler.py`)

A `RedditWorld` records what Reddit would answer: the subreddit about-page
(`none` covers both a failed fetch and a missing subreddit — the code folds
both to `None`), and the post listings per subreddit and per user, where
`FetchList.fail` is a fetch whose HTTP/parse step raises.  The fetch
helpers `_fetch_subreddit_posts` / `_fetch_user_posts` wrap their fetch in
`try/except` and return `[]` on any exception (reddit_crawler.py lines
228-230 and 249-251), which the model encodes directly; consequently no
exception from the fetch layer ever escapes into `RedditCrawler.crawl`,
whose `except` branch (lines 78-86, job FAILED plus re-raise) fires only on
errors of the store layer, which this model does not make fail. -/

/-- The subreddit about-page fields the crawler reads. -/
structure SubInfo where
  subscribers : Int
  description : String
  created_utc : Int
  over18 : Bool
deriving DecidableEq, Repr

/-- The post fields the crawler reads. -/
structure RPost where
  author : String
  score : Int
  pid : String
  title : String
  created_utc : Int
  subreddit : String
deriving DecidableEq, Repr

/-- A listing fetch: a parsed list of posts, or an attempt that raises. -/
inductive FetchList
  | ok (ps : List RPost)
  | fail
deriving DecidableEq, Repr

/-- What Reddit answers during one crawl. -/
structure RedditWorld where
  subredditInfo : List (String × Option SubInfo)
  subredditPosts : List (String × FetchList)
  userPosts : List (String × FetchList)
deriving DecidableEq, Repr

/-- Python's ASCII `str.lower()` on one character. -/
def lowerChar (c : Char) : Char :=
  if 65 ≤ c.toNat && c.toNat ≤ 90 then Char.ofNat (c.toNat + 32) else c

/-- Python's `str.lower()` (the crawler's entity names are ASCII). -/
def strLower (s : String) : String := String.mk (s.data.map lowerChar)

/-- Association lookup into a `RedditWorld` table. -/
def lookupWorld {α : Type} (m : List (String × α)) (k : String) : Option α :=
  (m.find? (fun p => p.1 == k)).map (fun p => p.2)

/-- `_fetch_subreddit_info` (lines 200-208): the about-page data, or `None`
when the subreddit is missing or the fetch raises (the `except` returns
`None`). -/
def fetch_subreddit_info (w : RedditWorld) (name : String) : Option SubInfo :=
  (lookupWorld w.subredditInfo name).join

/-- `_fetch_subreddit_posts` (lines 210-230): the top posts, with any fetch
exception caught and turned into `[]`. -/
def fetch_subreddit_posts (w : RedditWorld) (name : String) (limit : Nat) : List RPost :=
  match lookupWorld w.subredditPosts name with
  | some (FetchList.ok ps) => ps.take limit
  | _ => []

/-- `_fetch_user_posts` (lines 232-251): the user's submissions, with any
fetch exception caught and turned into `[]`. -/
def fetch_user_posts (w : RedditWorld) (username : String) (limit : Nat) : List RPost :=
  match lookupWorld w.userPosts username with
  | some (FetchList.ok ps) => ps.take limit
  | _ => []

/-- Stable descending insertion by count (ties keep the earlier element
first), one step. -/
def insertDesc (x : String × Nat) : List (String × Nat) → List (String × Nat)
  | [] => [x]
  | y :: ys => if x.2 < y.2 then y :: insertDesc x ys else x :: y :: ys

/-- Python's stable `sorted(..., key=count, reverse=True)`. -/
def sortDesc : List (String × Nat) → List (String × Nat)
  | [] => []
  | x :: xs => insertDesc x (sortDesc xs)

/-- `RedditCrawler._crawl_user` (lines 161-198): tally the user's posting
subreddits, upsert the user node, then connect the top `max_subreddits`
subreddits with weight `min(count/10, 1)`.  Note: no budget check. -/
def crawl_user (w : RedditWorld) (st : CrawlerState) (username : String)
    (maxSubreddits : Nat) : CrawlerState :=
  let posts := fetch_user_posts w username 50
  let counts := tally ((posts.map (fun p => p.subreddit)).filter (fun s => !(s == "")))
  let r1 := create_or_update_node st "reddit" "user" (strLower username)
    ("u/" ++ username) []
  ((sortDesc counts).take maxSubreddits).foldl (fun st2 p =>
    let r2 := create_or_update_node st2 "reddit" "subreddit" (strLower p.1)
      ("r/" ++ p.1) []
    create_edge r2.1 r1.2 r2.2 "posts_in" (min ((p.2 : Rat) / 10) 1)
      [("post_count", MetaVal.vint (p.2 : Int))]) r1.1

/-- The `for post in posts` loop of `_crawl_subreddit` (lines 125-159):
break when the budget is reached, skip deleted/absent authors, upsert the
author and the `posts_in` edge (weight `score/100`), and at depth ≥ 3
descend into the author's posting history. -/
def crawlPostsLoop (w : RedditWorld) (subNodeId : Nat) (depth maxEntities : Nat) :
    CrawlerState → List RPost → CrawlerState
  | st, [] => st
  | st, post :: rest =>
    if maxEntities ≤ st.discovered_nodes.length then st
    else if post.author == "" || post.author == "[deleted]" then
      crawlPostsLoop w subNodeId depth maxEntities st rest
    else
      let r1 := create_or_update_node st "reddit" "user" (strLower post.author)
        ("u/" ++ post.author)
        [("post_karma", MetaVal.vint 0), ("comment_karma", MetaVal.vint 0)]
      let st2 := create_edge r1.1 r1.2 subNodeId "posts_in" ((post.score : Rat) / 100)
        [("post_title", MetaVal.vstr post.title), ("post_id", MetaVal.vstr post.pid),
         ("created_utc", MetaVal.vint post.created_utc)]
      let st3 := if 3 ≤ depth then crawl_user w st2 post.author 5 else st2
      crawlPostsLoop w subNodeId depth maxEntities st3 rest

/-- `RedditCrawler._crawl_subreddit` (lines 90-159): budget check, about
fetch (give up silently when it yields nothing), subreddit upsert, and at
depth ≥ 2 the posts loop. -/
def crawl_subreddit (w : RedditWorld) (st : CrawlerState) (name : String)
    (depth maxEntities : Nat) : CrawlerState :=
  if maxEntities ≤ st.discovered_nodes.length then st
  else
    match fetch_subreddit_info w name with
    | none => st
    | some info =>
      let r1 := create_or_update_node st "reddit" "subreddit" (strLower name)
        ("r/" ++ name)
        [("subscribers", MetaVal.vint info.subscribers),
         ("description", MetaVal.vstr info.description),
         ("created_utc", MetaVal.vint info.created_utc),
         ("over18", MetaVal.vbool info.over18)]
      if depth < 2 then r1.1
      else crawlPostsLoop w r1.2 depth maxEntities r1.1 (fetch_subreddit_posts w name 25)

/-- `RedditCrawler.crawl` (lines 39-88): job PENDING → RUNNING, crawl from
the seed subreddit, then COMPLETED with the discovered-set sizes as counts.
The FAILED branch is unreachable for fetch failures (they are caught inside
the fetch helpers), which is exactly what claims C3/C5 probe. -/
def redditCrawl (w : RedditWorld) (startEntity : String) (depth maxEntities : Nat) :
    CrawlerState × CrawlJobRec :=
  let st := crawl_subreddit w emptyCrawlerState startEntity depth maxEntities
  (st, { status := CrawlStatus.completed, entity_count := st.discovered_nodes.length,
         edge_count := st.discovered_edges.length, error_message := none,
         started_at := some 0, completed_at := some 1 })

/-! ## Claim C3: the entity budget -/

/-- A world on which the depth-3 user expansion overruns the budget:
subreddit `s` has one post by `u1`, who also posted in `t1` and `t2`. -/
def c3World : RedditWorld :=
  { subredditInfo :=
      [("s", some { subscribers := 10, description := "", created_utc := 0,
                    over18 := false })],
    subredditPosts := [("s", FetchList.ok
      [{ author := "u1", score := 100, pid := "p1", title := "t", created_utc := 0,
         subreddit := "s" }])],
    userPosts := [("u1", FetchList.ok
      [{ author := "u1", score := 1, pid := "p2", title := "", created_utc := 0,
         subreddit := "t1" },
       { author := "u1", score := 1, pid := "p3", title := "", created_utc := 0,
         subreddit := "t2" }])] }

/-- C3, evaluated at the failing input.  A crawl with `depth = 3` and
`max_entities = 2` terminates with `entity_count = 4 > 2`: `_crawl_user`
runs no budget check, so after the budget-conscious subreddit loop admits
the second node it adds the user's top subreddits unconditionally,
violating `entity_count ≤ max_entities`. -/
theorem c3_budget_overrun :
    (redditCrawl c3World "s" 3 2).2.entity_count = 4 ∧
    ¬ ((redditCrawl c3World "s" 3 2).2.entity_count ≤ 2) :=
  ⟨rfl, by decide⟩

/-! ## Claim C5: transport failures after the seed -/

/-- Seed resolves, then the posts fetch raises. -/
def c5WorldFail : RedditWorld :=
  { subredditInfo :=
      [("seed", some { subscribers := 5, description := "d", created_utc := 0,
                       over18 := false })],
    subredditPosts := [("seed", FetchList.fail)],
    userPosts := [] }

/-- Same world, but the posts fetch succeeds with an empty listing. -/
def c5WorldEmpty : RedditWorld :=
  { c5WorldFail with subredditPosts := [("seed", FetchList.ok [])] }

/-- C5 counterexample.  With the seed resolved and the posts fetch raising
a non-rate-limit transport error, the run does not abort: the job ends
COMPLETED with no `error_message` (and the seed node counted), not FAILED
as the claim demands. -/
theorem c5_swallowed_failure_counterexample :
    (redditCrawl c5WorldFail "seed" 2 100).2.status = CrawlStatus.completed ∧
    (redditCrawl c5WorldFail "seed" 2 100).2.error_message = none ∧
    (redditCrawl c5WorldFail "seed" 2 100).2.entity_count = 1 ∧
    CrawlStatus.completed ≠ CrawlStatus.failed :=
  ⟨rfl, rfl, rfl, by decide⟩

/-- C5 amended.  A transport failure inside a posts fetch is caught by the
fetch helper and treated exactly like an empty listing — the crawl result
is identical — and a crawl whose only failures come from the fetch layer
always reaches COMPLETED with `error_message` unset; only exceptions that
escape the fetch helpers (e.g. from the store) take the FAILED branch. -/
theorem c5_fetch_failure_amended :
    (redditCrawl c5WorldFail "seed" 2 100 = redditCrawl c5WorldEmpty "seed" 2 100) ∧
    (∀ (w : RedditWorld) (s : String) (d m : Nat),
      (redditCrawl w s d m).2.status = CrawlStatus.completed ∧
      (redditCrawl w s d m).2.error_message = none) :=
  ⟨rfl, fun _w _s _d _m => ⟨rfl, rfl⟩⟩

end SocialGraph
